import Mathlib

/-!
Verification of the tatlin geometry and view-transform core (libtatlin):
a shallow embedding of `vector.py`, `actors.py` and `views.py`, with theorems
settling the specification claims about invariants, transformations, colors,
view state and render-range computation.
-/

namespace Tatlin

/-- A 3D point or vector, as a triple of real coordinates. -/
abbrev V3 := ℝ × ℝ × ℝ

/-! ## vector.py -/

namespace VectorMath

/-- `vector.translate`: add a uniform offset to every vertex. -/
noncomputable def translate (vertices : List V3) (x y z : ℝ) : List V3 :=
  vertices.map fun v => (v.1 + x, v.2.1 + y, v.2.2 + z)

/-- `math.radians`: degrees to radians. -/
noncomputable def radians (angle : ℝ) : ℝ := angle * Real.pi / 180

/-- `vector.rotate`: right-multiply every (row) vertex by the axis-angle
rotation matrix built from `cos`/`sin` of the angle in radians. The axis is
used exactly as supplied, without normalization, as in the source. -/
noncomputable def rotate (vertices : List V3) (angle x y z : ℝ) : List V3 :=
  let c := Real.cos (radians angle)
  let s := Real.sin (radians angle)
  let C := 1 - c
  vertices.map fun v =>
    (v.1 * (x ^ 2 * C + c) + v.2.1 * (y * x * C + z * s) + v.2.2 * (x * z * C - y * s),
     v.1 * (x * y * C - z * s) + v.2.1 * (y ^ 2 * C + c) + v.2.2 * (y * z * C + x * s),
     v.1 * (x * z * C + y * s) + v.2.1 * (y * z * C - x * s) + v.2.2 * (z ^ 2 * C + c))

theorem rotate_length (vertices : List V3) (angle x y z : ℝ) :
    (rotate vertices angle x y z).length = vertices.length := by
  simp [rotate]

end VectorMath

/-! ## actors.py: GcodeModel colors -/

/-- An RGBA color, as in the 4-element float lists of `GcodeModel.color_map`. -/
structure RGBA where
  r : ℚ
  g : ℚ
  b : ℚ
  a : ℚ
  deriving DecidableEq, Repr

/-- `color_map` entry for red. -/
def colorRed : RGBA := ⟨1, 0, 0, 6/10⟩

/-- `color_map` entry for yellow. -/
def colorYellow : RGBA := ⟨1, 875/1000, 0, 6/10⟩

/-- `color_map` entry for orange. -/
def colorOrange : RGBA := ⟨1, 373/1000, 0, 6/10⟩

/-- `color_map` entry for green. -/
def colorGreen : RGBA := ⟨0, 1, 0, 6/10⟩

/-- `color_map` entry for cyan. -/
def colorCyan : RGBA := ⟨0, 875/1000, 875/1000, 6/10⟩

/-- `color_map` entry for gray. -/
def colorGray : RGBA := ⟨6/10, 6/10, 6/10, 6/10⟩

/-- One G-code movement record, as consumed by `GcodeModel`: two endpoints,
the extrusion/loop/perimeter flags, and the result of the `angle()` method. -/
structure Movement where
  point_a : V3
  point_b : V3
  extruder_on : Bool
  is_loop : Bool
  is_perimeter : Bool
  is_perimeter_outer : Bool
  angle : ℝ

/-- `GcodeModel.movement_color`: the color for a movement, selected by the
chain of conditionals in the source. -/
def movement_color (m : Movement) : RGBA :=
  if m.extruder_on = false then colorGray
  else if m.is_loop = true then colorYellow
  else if m.is_perimeter = true ∧ m.is_perimeter_outer = true then colorCyan
  else if m.is_perimeter = true then colorGreen
  else colorRed

/-- C3: the color assigned by movement_color is determined by the first
matching rule in this fixed order: extruder off yields gray regardless of the
other flags; otherwise is_loop yields yellow; otherwise is_perimeter together
with is_perimeter_outer yields cyan; otherwise is_perimeter yields green;
otherwise red. -/
theorem C3_movement_color_rules (m : Movement) :
    (m.extruder_on = false → movement_color m = colorGray) ∧
    (m.extruder_on = true → m.is_loop = true → movement_color m = colorYellow) ∧
    (m.extruder_on = true → m.is_loop = false → m.is_perimeter = true →
      m.is_perimeter_outer = true → movement_color m = colorCyan) ∧
    (m.extruder_on = true → m.is_loop = false → m.is_perimeter = true →
      m.is_perimeter_outer = false → movement_color m = colorGreen) ∧
    (m.extruder_on = true → m.is_loop = false → m.is_perimeter = false →
      movement_color m = colorRed) := by
  refine ⟨?_, ?_, ?_, ?_, ?_⟩ <;> intros <;> simp_all [movement_color]

/-- A movement with the extruder off, used to exercise the color rules on a
concrete input. -/
noncomputable def movementOff : Movement :=
  ⟨(0, 0, 0), (1, 0, 0), false, true, true, true, 0⟩

/-- Witness for C3: evaluating the first color rule at a concrete movement. -/
theorem C3_movement_color_rules_witness :
    movement_color movementOff = colorGray :=
  (C3_movement_color_rules movementOff).1 rfl

/-! ## actors.py: GcodeModel vertex arrays -/

/-- The fixed 3-vertex arrowhead template `GcodeModel.arrow`. -/
noncomputable def arrowTemplate : List V3 :=
  [(0, 0, 0), (4/10, -(1/10), 0), (4/10, 1/10, 0)]

/-- The rotated arrowhead for one movement:
`vector.rotate(self.arrow, movement.angle(), 0.0, 0.0, 1.0)`. -/
noncomputable def arrowFor (m : Movement) : List V3 :=
  VectorMath.rotate arrowTemplate m.angle 0 0 1

/-- The inner loop of `create_vertex_arrays`: for each movement of a layer,
append its two endpoints to the vertex list, its color to the color list and
its rotated arrowhead to the arrow list. -/
noncomputable def addMovements :
    List Movement → List V3 → List RGBA → List V3 → List V3 × List RGBA × List V3
  | [], vl, cl, al => (vl, cl, al)
  | m :: rest, vl, cl, al =>
      addMovements rest (vl ++ [m.point_a, m.point_b]) (cl ++ [movement_color m])
        (al ++ arrowFor m)

/-- The four parallel buffers accumulated by `create_vertex_arrays` before the
arrow translation step. -/
structure Buffers where
  vertex_list : List V3
  color_list : List RGBA
  arrow_list : List V3
  layer_stops : List ℕ

/-- The outer loop of `create_vertex_arrays`: process each layer in order and
append the running vertex-list length to `layer_stops` after each layer. -/
noncomputable def addLayers :
    List (List Movement) → List V3 → List RGBA → List V3 → List ℕ → Buffers
  | [], vl, cl, al, stops => ⟨vl, cl, al, stops⟩
  | layer :: rest, vl, cl, al, stops =>
      match addMovements layer vl cl al with
      | (vl2, cl2, al2) => addLayers rest vl2 cl2 al2 (stops ++ [vl2.length])

/-- `self.vertices[1::2]`: every second vertex starting from index 1, i.e. the
ending endpoint of every movement. -/
def sliceOdd : List V3 → List V3
  | [] => []
  | [_] => []
  | _ :: b :: rest => b :: sliceOdd rest

/-- `.repeat(3, 0)`: repeat each row three times. -/
def repeat3 : List V3 → List V3
  | [] => []
  | v :: rest => v :: v :: v :: repeat3 rest

/-- Componentwise addition of two vertices (numpy elementwise `+`). -/
noncomputable def vadd (a b : V3) : V3 := (a.1 + b.1, a.2.1 + b.2.1, a.2.2 + b.2.2)

/-- The buffers owned by a constructed `GcodeModel`. -/
structure GcodeArrays where
  vertices : List V3
  colors : List RGBA
  arrows : List V3
  layer_stops : List ℕ

/-- The result of `create_vertex_arrays` before the final assert: the four
buffers, with each arrowhead translated to its movement's ending endpoint
(`self.arrows + self.vertices[1::2].repeat(3, 0)`). -/
noncomputable def buildArrays (model_data : List (List Movement)) : GcodeArrays :=
  let b := addLayers model_data [] [] [] [0]
  ⟨b.vertex_list, b.color_list,
   List.zipWith vadd b.arrow_list (repeat3 (sliceOdd b.vertex_list)),
   b.layer_stops⟩

/-- `GcodeModel.create_vertex_arrays`: builds the buffers and then asserts the
2:3 model-vertex to arrow-vertex ratio; an assertion failure aborts
construction (modelled as `none`) instead of returning a partial model. -/
noncomputable def create_vertex_arrays (model_data : List (List Movement)) :
    Option GcodeArrays :=
  let g := buildArrays model_data
  if g.arrows.length = (g.vertices.length / 2) * 3 then some g else none

theorem arrowFor_length (m : Movement) : (arrowFor m).length = 3 := by
  simp [arrowFor, VectorMath.rotate_length, arrowTemplate]

theorem addMovements_spec :
    ∀ (ms : List Movement) (vl : List V3) (cl : List RGBA) (al : List V3),
    (addMovements ms vl cl al).1.length = vl.length + 2 * ms.length ∧
    (addMovements ms vl cl al).2.2.length = al.length + 3 * ms.length
  | [], vl, cl, al => by simp [addMovements]
  | m :: rest, vl, cl, al => by
      have ih := addMovements_spec rest (vl ++ [m.point_a, m.point_b])
        (cl ++ [movement_color m]) (al ++ arrowFor m)
      simp only [addMovements, ih, List.length_append, arrowFor_length,
        List.length_cons, List.length_nil]
      omega

theorem sliceOdd_length : ∀ l : List V3, (sliceOdd l).length = l.length / 2
  | [] => rfl
  | [_] => by simp [sliceOdd]
  | _ :: _ :: rest => by
      have ih := sliceOdd_length rest
      simp only [sliceOdd, List.length_cons, ih]
      omega

theorem repeat3_length : ∀ l : List V3, (repeat3 l).length = 3 * l.length
  | [] => rfl
  | _ :: rest => by
      have ih := repeat3_length rest
      simp only [repeat3, List.length_cons, ih]
      omega

/-- The last element of a stop list (0 for the empty list), used to state the
`layer_stops` invariants. -/
def lastStop : List ℕ → ℕ
  | [] => 0
  | [a] => a
  | _ :: rest => lastStop rest

theorem lastStop_concat : ∀ (l : List ℕ) (n : ℕ), lastStop (l ++ [n]) = n
  | [], _ => rfl
  | [_], _ => rfl
  | a :: b :: t, n => by
      have ih := lastStop_concat (b :: t) n
      simpa [lastStop] using ih

theorem headq_concat (l : List ℕ) (n : ℕ) (h : l ≠ []) :
    (l ++ [n]).head? = l.head? := by
  cases l with
  | nil => exact absurd rfl h
  | cons a t => rfl

theorem chain_concat_le :
    ∀ (l : List ℕ) (n : ℕ), l.Chain' (· ≤ ·) → lastStop l ≤ n →
      (l ++ [n]).Chain' (· ≤ ·)
  | [], n, _, _ => by simp
  | [a], n, _, hle => by
      simp only [List.cons_append, List.nil_append]
      exact List.chain'_cons.mpr ⟨hle, by simp⟩
  | a :: b :: t, n, hch, hle => by
      rw [List.chain'_cons] at hch
      have ih := chain_concat_le (b :: t) n hch.2 (by simpa [lastStop] using hle)
      simp only [List.cons_append] at ih ⊢
      exact List.chain'_cons.mpr ⟨hch.1, ih⟩

theorem mem_le_lastStop :
    ∀ (l : List ℕ), l.Chain' (· ≤ ·) → ∀ x ∈ l, x ≤ lastStop l
  | [], _, x, hx => absurd hx (by simp)
  | [a], _, x, hx => by
      have hxa : x = a := by simpa using hx
      simp [hxa, lastStop]
  | a :: b :: t, hch, x, hx => by
      rw [List.chain'_cons] at hch
      have ih := mem_le_lastStop (b :: t) hch.2
      have hlast : lastStop (a :: b :: t) = lastStop (b :: t) := by simp [lastStop]
      rcases List.mem_cons.mp hx with h1 | h2
      · have hb := ih b (by simp)
        have hab := hch.1
        rw [hlast, h1]
        omega
      · rw [hlast]
        exact ih x h2

theorem addLayers_spec :
    ∀ (layers : List (List Movement)) (vl : List V3) (cl : List RGBA)
      (al : List V3) (stops : List ℕ) (M : ℕ),
    vl.length = 2 * M → al.length = 3 * M →
    stops ≠ [] → stops.Chain' (· ≤ ·) → lastStop stops = vl.length →
    ∃ K,
      (addLayers layers vl cl al stops).vertex_list.length = 2 * K ∧
      (addLayers layers vl cl al stops).arrow_list.length = 3 * K ∧
      (addLayers layers vl cl al stops).layer_stops ≠ [] ∧
      (addLayers layers vl cl al stops).layer_stops.Chain' (· ≤ ·) ∧
      lastStop (addLayers layers vl cl al stops).layer_stops =
        (addLayers layers vl cl al stops).vertex_list.length ∧
      (addLayers layers vl cl al stops).layer_stops.length =
        stops.length + layers.length ∧
      (addLayers layers vl cl al stops).layer_stops.head? = stops.head?
  | [], vl, cl, al, stops, M => by
      intro hvl hal hne hch hlast
      refine ⟨M, ?_, ?_, ?_, ?_, ?_, ?_, ?_⟩ <;>
        simp [addLayers, hvl, hal, hne, hch, hlast]
  | layer :: rest, vl, cl, al, stops, M => by
      intro hvl hal hne hch hlast
      obtain ⟨hv2, ha2⟩ := addMovements_spec layer vl cl al
      rcases hp : addMovements layer vl cl al with ⟨vl2, cl2, al2⟩
      rw [hp] at hv2 ha2
      simp only at hv2 ha2
      have hvl2 : vl2.length = 2 * (M + layer.length) := by omega
      have hal2 : al2.length = 3 * (M + layer.length) := by omega
      have hne2 : stops ++ [vl2.length] ≠ [] := by simp
      have hch2 : (stops ++ [vl2.length]).Chain' (· ≤ ·) :=
        chain_concat_le stops vl2.length hch (by omega)
      have hlast2 : lastStop (stops ++ [vl2.length]) = vl2.length :=
        lastStop_concat stops vl2.length
      obtain ⟨K, h1, h2, h3, h4, h5, h6, h7⟩ :=
        addLayers_spec rest vl2 cl2 al2 (stops ++ [vl2.length]) (M + layer.length)
          hvl2 hal2 hne2 hch2 hlast2
      refine ⟨K, ?_⟩
      rw [addLayers, hp]
      refine ⟨h1, h2, h3, h4, h5, ?_, ?_⟩
      · rw [h6]; simp; omega
      · rw [h7, headq_concat stops vl2.length hne]

theorem buildArrays_spec (d : List (List Movement)) :
    ∃ K, (buildArrays d).vertices.length = 2 * K ∧
      (buildArrays d).arrows.length = 3 * K ∧
      (buildArrays d).layer_stops.Chain' (· ≤ ·) ∧
      lastStop (buildArrays d).layer_stops = (buildArrays d).vertices.length ∧
      (buildArrays d).layer_stops.length = d.length + 1 ∧
      (buildArrays d).layer_stops.head? = some 0 := by
  obtain ⟨K, h1, h2, h3, h4, h5, h6, h7⟩ :=
    addLayers_spec d [] [] [] [0] 0 rfl rfl (by simp) (by simp) rfl
  refine ⟨K, ?_, ?_, ?_, ?_, ?_, ?_⟩
  · simpa [buildArrays] using h1
  · simp only [buildArrays, List.length_zipWith, repeat3_length, sliceOdd_length]
    omega
  · simpa [buildArrays] using h4
  · simpa [buildArrays] using h5
  · have h6a : (addLayers d [] [] [] [0]).layer_stops.length = 1 + d.length := by
      simpa using h6
    simp only [buildArrays]
    omega
  · simpa [buildArrays] using h7

theorem create_eq (d : List (List Movement)) :
    create_vertex_arrays d = some (buildArrays d) := by
  obtain ⟨K, hv, ha, -, -, -, -⟩ := buildArrays_spec d
  rw [create_vertex_arrays]
  rw [if_pos]
  rw [hv, ha]
  omega

/-- C1: for every ordered sequence of layers of movements, construction
completes (the assert never fires, so no partially constructed model is
returned) and the arrow buffer length equals (vertex buffer length / 2) * 3;
a ratio violation would instead abort construction with `none`, as encoded in
`create_vertex_arrays`. -/
theorem C1_arrow_ratio (model_data : List (List Movement)) :
    ∃ g, create_vertex_arrays model_data = some g ∧
      g.arrows.length = (g.vertices.length / 2) * 3 := by
  obtain ⟨K, hv, ha, -, -, -, -⟩ := buildArrays_spec model_data
  exact ⟨buildArrays model_data, create_eq model_data, by rw [hv, ha]; omega⟩

/-- C2: after construction, the layer_stops sequence is non-decreasing, its
first element is 0, its last element equals the vertex buffer length, and its
length equals the number of layers plus 1. -/
theorem C2_layer_stops (model_data : List (List Movement)) (g : GcodeArrays)
    (h : create_vertex_arrays model_data = some g) :
    g.layer_stops.Chain' (· ≤ ·) ∧
    g.layer_stops.head? = some 0 ∧
    lastStop g.layer_stops = g.vertices.length ∧
    g.layer_stops.length = model_data.length + 1 := by
  have he := create_eq model_data
  rw [he] at h
  obtain rfl : buildArrays model_data = g := by injection h
  obtain ⟨K, -, -, h3, h4, h5, h6⟩ := buildArrays_spec model_data
  exact ⟨h3, h6, h4, h5⟩

/-- A movement with the extruder on and no special flags (classified red). -/
noncomputable def movementRed : Movement :=
  ⟨(0, 0, 0), (1, 0, 0), true, false, false, false, 0⟩

/-- The two-layer demo scenario: each layer holds one red movement. -/
noncomputable def demoLayers : List (List Movement) := [[movementRed], [movementRed]]

/-- Witness for C2: the layer-stop invariants hold for the concrete two-layer
model, with the construction hypothesis discharged by `create_eq`. -/
theorem C2_layer_stops_witness :
    (buildArrays demoLayers).layer_stops.Chain' (· ≤ ·) ∧
    (buildArrays demoLayers).layer_stops.head? = some 0 ∧
    lastStop (buildArrays demoLayers).layer_stops =
      (buildArrays demoLayers).vertices.length ∧
    (buildArrays demoLayers).layer_stops.length = demoLayers.length + 1 :=
  C2_layer_stops demoLayers (buildArrays demoLayers) (create_eq demoLayers)

/-! ## actors.py: Model bounding box and StlModel transformations -/

/-- `BoundingBox`: a cuboid given by its upper and lower corners. -/
structure BoundingBox where
  upper_corner : V3
  lower_corner : V3

/-- `Model._calculate_bounding_box`: per-axis min and max over the vertex
buffer (columnar reduction in the source); junk corners for an empty buffer,
which the source never queries. -/
noncomputable def calculate_bounding_box (vertices : List V3) : BoundingBox :=
  match vertices with
  | [] => ⟨(0, 0, 0), (0, 0, 0)⟩
  | v :: rest =>
      ⟨rest.foldl (fun acc w => (max acc.1 w.1, max acc.2.1 w.2.1, max acc.2.2 w.2.2)) v,
       rest.foldl (fun acc w => (min acc.1 w.1, min acc.2.1 w.2.1, min acc.2.2 w.2.2)) v⟩

/-- The state of an `StlModel`: vertex and normal buffers, the cumulative
scaling factor, and the lazily cached bounding box (`self._bounding_box`,
`None` when absent). -/
structure StlModel where
  vertices : List V3
  normals : List V3
  scaling_factor : ℝ
  cached_bounding_box : Option BoundingBox

/-- `StlModel.__init__`: fresh model with scaling factor 1.0 and no cached
bounding box. -/
noncomputable def initStl (vertices normals : List V3) : StlModel :=
  ⟨vertices, normals, 1, none⟩

/-- The `Model.bounding_box` property read: return the cached box if present,
otherwise compute it from the current vertices, cache it and return it. -/
noncomputable def StlModel.bounding_box (st : StlModel) : BoundingBox × StlModel :=
  match st.cached_bounding_box with
  | some b => (b, st)
  | none =>
      (calculate_bounding_box st.vertices,
       { st with cached_bounding_box := some (calculate_bounding_box st.vertices) })

/-- `StlModel.scale`: no-op when the factor equals the current scaling factor;
otherwise multiply every coordinate by `factor / scaling_factor`, update the
scaling factor and clear the cache (`init_model_attributes`). Division by a
zero scaling factor raises in the source (ZeroDivisionError), modelled as
`none`. -/
noncomputable def StlModel.scale (st : StlModel) (factor : ℝ) : Option StlModel :=
  if factor = st.scaling_factor then some st
  else if st.scaling_factor = 0 then none
  else some { st with
    vertices := st.vertices.map fun v =>
      (v.1 * (factor / st.scaling_factor), v.2.1 * (factor / st.scaling_factor),
       v.2.2 * (factor / st.scaling_factor)),
    scaling_factor := factor,
    cached_bounding_box := none }

/-- `StlModel.translate`: delegate to the vector translate and clear the
cached bounding box. -/
noncomputable def StlModel.translate (st : StlModel) (x y z : ℝ) : StlModel :=
  { st with vertices := VectorMath.translate st.vertices x y z,
            cached_bounding_box := none }

/-- `StlModel.rotate`: delegate to the vector rotate and clear the cached
bounding box (normals are not rotated, as in the source). -/
noncomputable def StlModel.rotate (st : StlModel) (angle x y z : ℝ) : StlModel :=
  { st with vertices := VectorMath.rotate st.vertices angle x y z,
            cached_bounding_box := none }

/-- Counterexample for C4: calling scale with the current scaling factor while
a box is cached returns without clearing the cache, so "after any scale,
translate, or rotate mutation the cache is cleared before the operation
returns" fails at this input. -/
theorem C4_scale_noop_keeps_cache :
    StlModel.scale
        ⟨[(1, 2, 3)], [], 1, some (calculate_bounding_box [(1, 2, 3)])⟩ 1 =
      some ⟨[(1, 2, 3)], [], 1, some (calculate_bounding_box [(1, 2, 3)])⟩ ∧
    (some (calculate_bounding_box [(1, 2, 3)]) : Option BoundingBox) ≠ none := by
  exact ⟨by simp [StlModel.scale], by simp⟩

/-- C4 (amended): reading bounding_box with no cached value computes the box
from the current vertex buffer by per-axis min/max, caches it and returns it;
translate and rotate always clear the cache before returning; scale clears it
exactly when the factor differs from the current scaling factor and otherwise
changes nothing; consequently, from any cache-consistent state, a bounding_box
read after any of the three operations returns the box computed from the
current post-operation vertices, never a stale one. -/
theorem C4_cache_invalidation (st : StlModel)
    (hc : st.cached_bounding_box = none ∨
          st.cached_bounding_box = some (calculate_bounding_box st.vertices)) :
    (st.cached_bounding_box = none →
      st.bounding_box =
        (calculate_bounding_box st.vertices,
         { st with cached_bounding_box := some (calculate_bounding_box st.vertices) })) ∧
    (∀ x y z : ℝ,
      (st.translate x y z).cached_bounding_box = none ∧
      (st.translate x y z).bounding_box.1 =
        calculate_bounding_box (st.translate x y z).vertices) ∧
    (∀ angle x y z : ℝ,
      (st.rotate angle x y z).cached_bounding_box = none ∧
      (st.rotate angle x y z).bounding_box.1 =
        calculate_bounding_box (st.rotate angle x y z).vertices) ∧
    (∀ (factor : ℝ) (st2 : StlModel), st.scale factor = some st2 →
      (factor ≠ st.scaling_factor → st2.cached_bounding_box = none) ∧
      st2.bounding_box.1 = calculate_bounding_box st2.vertices) := by
  refine ⟨?_, ?_, ?_, ?_⟩
  · intro h
    simp [StlModel.bounding_box, h]
  · intro x y z
    exact ⟨rfl, by simp [StlModel.bounding_box, StlModel.translate]⟩
  · intro angle x y z
    exact ⟨rfl, by simp [StlModel.bounding_box, StlModel.rotate]⟩
  · intro factor st2 hsc
    by_cases hf : factor = st.scaling_factor
    · rw [StlModel.scale, if_pos hf] at hsc
      obtain rfl : st = st2 := by injection hsc
      refine ⟨fun hne => absurd hf hne, ?_⟩
      rcases hc with h | h <;> simp [StlModel.bounding_box, h]
    · rw [StlModel.scale, if_neg hf] at hsc
      by_cases h0 : st.scaling_factor = 0
      · rw [if_pos h0] at hsc
        exact absurd hsc (by simp)
      · rw [if_neg h0] at hsc
        have : st2.cached_bounding_box = none := by
          obtain rfl : _ = st2 := by injection hsc
          rfl
        exact ⟨fun _ => this, by simp [StlModel.bounding_box, this]⟩

/-- Witness for C4 (amended): the translate conjunct evaluated on a concrete
fresh model, with the cache-consistency hypothesis discharged by `rfl`. -/
theorem C4_cache_invalidation_witness :
    (StlModel.translate (initStl [(1, 2, 3)] []) 1 0 0).cached_bounding_box = none ∧
    (StlModel.translate (initStl [(1, 2, 3)] []) 1 0 0).bounding_box.1 =
      calculate_bounding_box (StlModel.translate (initStl [(1, 2, 3)] []) 1 0 0).vertices :=
  (C4_cache_invalidation (initStl [(1, 2, 3)] []) (Or.inl rfl)).2.1 1 0 0

/-- Counterexample for C5: with factor 0, the first scale zeroes the scaling
factor, and the second scale divides by it (ZeroDivisionError in the source,
`none` here), so "for any factor f, scale(f) then scale(1.0) restores the
original vertex coordinates" fails at f = 0. -/
theorem C5_scale_zero_fails :
    (StlModel.scale (initStl [(1, 0, 0)] []) 0).bind (fun st => st.scale 1) =
      none := by
  norm_num [initStl, StlModel.scale, Option.bind]

/-- Helper: mapping a pointwise-identity function over a list is the
identity. -/
theorem map_id_of_eq (g : V3 → V3) (hg : ∀ v, g v = v) :
    ∀ l : List V3, l.map g = l := by
  intro l
  induction l with
  | nil => rfl
  | cons v t ih => simp [hg v, ih]

/-- C5 (amended): scale(factor) is a no-op when the factor equals the current
scaling factor, and otherwise multiplies every coordinate by
factor / scaling_factor and sets the scaling factor; consequently, for any
vertex buffer and any NONZERO factor f, scale(f) followed by scale(1.0)
restores the original vertex coordinates (f = 0 instead makes the second call
divide by zero). -/
theorem C5_scale_compose :
    (∀ (st : StlModel) (factor : ℝ), factor = st.scaling_factor →
      st.scale factor = some st) ∧
    (∀ (st : StlModel) (factor : ℝ),
      factor ≠ st.scaling_factor → st.scaling_factor ≠ 0 →
      st.scale factor = some { st with
        vertices := st.vertices.map fun v =>
          (v.1 * (factor / st.scaling_factor), v.2.1 * (factor / st.scaling_factor),
           v.2.2 * (factor / st.scaling_factor)),
        scaling_factor := factor,
        cached_bounding_box := none }) ∧
    (∀ (vs ns : List V3) (factor : ℝ), factor ≠ 0 →
      ∃ st3, (StlModel.scale (initStl vs ns) factor).bind (fun st => st.scale 1) =
          some st3 ∧ st3.vertices = vs) := by
  refine ⟨?_, ?_, ?_⟩
  · intro st factor h
    rw [StlModel.scale, if_pos h]
  · intro st factor hne h0
    rw [StlModel.scale, if_neg hne, if_neg h0]
  · intro vs ns factor hf
    by_cases h1 : factor = 1
    · subst h1
      refine ⟨initStl vs ns, ?_, rfl⟩
      have hno : (initStl vs ns).scale 1 = some (initStl vs ns) := by
        rw [StlModel.scale,
          if_pos (show (1 : ℝ) = (initStl vs ns).scaling_factor from rfl)]
      rw [hno]
      simpa [Option.bind] using hno
    · have hs1 : (initStl vs ns).scale factor = some { initStl vs ns with
          vertices := vs.map fun v =>
            (v.1 * (factor / 1), v.2.1 * (factor / 1), v.2.2 * (factor / 1)),
          scaling_factor := factor,
          cached_bounding_box := none } := by
        rw [StlModel.scale]
        rw [if_neg (by simpa [initStl] using h1), if_neg (by simp [initStl])]
        rfl
      refine ⟨⟨(vs.map fun v =>
          (v.1 * (factor / 1), v.2.1 * (factor / 1), v.2.2 * (factor / 1))).map
            (fun v => (v.1 * (1 / factor), v.2.1 * (1 / factor), v.2.2 * (1 / factor))),
        ns, 1, none⟩, ?_, ?_⟩
      · rw [hs1]
        show Option.bind _ _ = _
        rw [Option.bind]
        rw [StlModel.scale, if_neg (by simpa using Ne.symm h1), if_neg hf]
        rfl
      · show List.map _ (List.map _ vs) = vs
        rw [List.map_map]
        refine map_id_of_eq _ ?_ vs
        intro v
        obtain ⟨a, b, c⟩ := v
        simp only [Function.comp]
        field_simp

/-- Witness for C5 (amended): the round trip evaluated for the concrete buffer
[(5, 6, 7)] and factor 2, with the nonzero hypothesis discharged by norm_num. -/
theorem C5_scale_compose_witness :
    ∃ st3, (StlModel.scale (initStl [(5, 6, 7)] []) 2).bind (fun st => st.scale 1) =
        some st3 ∧ st3.vertices = [(5, 6, 7)] :=
  C5_scale_compose.2.2 [(5, 6, 7)] [] 2 (by norm_num)

/-! ## vector.py: the zero-axis degenerate case -/

/-- Helper: mapping pointwise-equal functions over a list gives equal lists. -/
theorem map_ext_eq (f g : V3 → V3) (hfg : ∀ v, f v = g v) (l : List V3) :
    l.map f = l.map g := by
  induction l with
  | nil => rfl
  | cons v t ih => simp [hfg v, ih]

/-- With a zero-length axis, the rotation matrix collapses to cos(angle) times
the identity, so rotate scales every vertex by the cosine of the angle. -/
theorem rotate_zero_axis (vertices : List V3) (angle : ℝ) :
    VectorMath.rotate vertices angle 0 0 0 =
      vertices.map (fun v =>
        (Real.cos (VectorMath.radians angle) * v.1,
         Real.cos (VectorMath.radians angle) * v.2.1,
         Real.cos (VectorMath.radians angle) * v.2.2)) := by
  simp only [VectorMath.rotate]
  apply map_ext_eq
  intro v
  simp only [Prod.mk.injEq]
  refine ⟨by ring, by ring, by ring⟩

/-- Counterexample for C8: rotating the single vertex (1, 0, 0) by 180 degrees
about the zero-length axis yields (-1, 0, 0), not the unchanged vertex, so the
zero-axis fallback is not an identity transform. -/
theorem C8_zero_axis_not_identity :
    VectorMath.rotate [((1 : ℝ), 0, 0)] 180 0 0 0 = [(-1, 0, 0)] ∧
    VectorMath.rotate [((1 : ℝ), 0, 0)] 180 0 0 0 ≠ [((1 : ℝ), 0, 0)] := by
  have hrad : VectorMath.radians 180 = Real.pi := by
    rw [VectorMath.radians]; ring
  have h1 : VectorMath.rotate [((1 : ℝ), 0, 0)] 180 0 0 0 = [(-1, 0, 0)] := by
    rw [rotate_zero_axis, hrad]
    simp [Real.cos_pi]
  refine ⟨h1, ?_⟩
  rw [h1]
  intro h
  have : (-1 : ℝ) = 1 := congrArg (fun l => (l.headD (0, 0, 0)).1) h
  norm_num at this

/-- C8 (amended): rotate with a zero-length axis (x = y = z = 0) does not
crash — it is a total function that multiplies every vertex by the cosine of
the angle in radians — and it is the identity at angle 0, but not at every
angle. -/
theorem C8_zero_axis_behavior (vertices : List V3) (angle : ℝ) :
    VectorMath.rotate vertices angle 0 0 0 =
      vertices.map (fun v =>
        (Real.cos (VectorMath.radians angle) * v.1,
         Real.cos (VectorMath.radians angle) * v.2.1,
         Real.cos (VectorMath.radians angle) * v.2.2)) ∧
    VectorMath.rotate vertices 0 0 0 0 = vertices := by
  refine ⟨rotate_zero_axis vertices angle, ?_⟩
  rw [rotate_zero_axis]
  have hrad : VectorMath.radians 0 = 0 := by rw [VectorMath.radians]; ring
  rw [hrad, Real.cos_zero]
  exact map_id_of_eq _ (fun v => by simp) vertices

/-! ## views.py: ViewMode zoom and the save/restore state stack -/

/-- `ViewMode.ZOOM_MIN`. -/
def ZOOM_MIN : ℚ := 1/10

/-- `ViewMode.ZOOM_MAX`. -/
def ZOOM_MAX : ℚ := 1000

/-- The body of `ViewMode.zoom` acting on the zoom factor: multiply by 1.2 and
cap at ZOOM_MAX when delta_y is positive, multiply by 0.83 and floor at
ZOOM_MIN when delta_y is negative, otherwise leave it unchanged. -/
def zoomStep (zoom_factor : ℚ) (delta_y : ℚ) : ℚ :=
  if delta_y > 0 then min (zoom_factor * (12/10)) ZOOM_MAX
  else if delta_y < 0 then max (zoom_factor * (83/100)) ZOOM_MIN
  else zoom_factor

/-- Python `list.append` on the state stack. -/
def pushVar (stack : List ℚ) (v : ℚ) : List ℚ := stack ++ [v]

/-- Python `list.pop()` on the state stack: the last element (0 for an empty
stack, which the source never pops) and the remaining stack. -/
def popTop (stack : List ℚ) : ℚ × List ℚ := (stack.getLastD 0, stack.dropLast)

theorem popTop_pushVar (stack : List ℚ) (v : ℚ) :
    popTop (pushVar stack v) = (v, stack) := by
  rw [popTop, pushVar]
  simp only [Prod.mk.injEq]
  refine ⟨?_, by simp⟩
  induction stack with
  | nil => rfl
  | cons a t ih => cases t <;> simp_all [List.getLastD]

/-- The `View2D` camera state: pan offsets, zoom factor, azimuth and the
save/restore stack (`_save_vars = [x, y, z, zoom_factor, azimuth]`). -/
structure View2D where
  x : ℚ
  y : ℚ
  z : ℚ
  zoom_factor : ℚ
  azimuth : ℚ
  stack : List ℚ

/-- `View2D` + `ViewMode.push_state`: append each saved variable in
`_save_vars` order. -/
def View2D.push_state (st : View2D) : View2D :=
  { st with stack :=
      pushVar (pushVar (pushVar (pushVar (pushVar st.stack st.x) st.y) st.z)
        st.zoom_factor) st.azimuth }

/-- `View2D` + `ViewMode.pop_state`: pop each saved variable in reversed
`_save_vars` order. -/
def View2D.pop_state (st : View2D) : View2D :=
  let p1 := popTop st.stack
  let p2 := popTop p1.2
  let p3 := popTop p2.2
  let p4 := popTop p3.2
  let p5 := popTop p4.2
  { x := p5.1, y := p4.1, z := p3.1, zoom_factor := p2.1, azimuth := p1.1,
    stack := p5.2 }

/-- `ViewMode.reset_state`: pop then immediately push. -/
def View2D.reset_state (st : View2D) : View2D := st.pop_state.push_state

/-- `View2D.rotate`: only delta_x is used (azimuth). -/
def View2D.rotate (st : View2D) (delta_x delta_y : ℚ) : View2D :=
  { st with azimuth := st.azimuth + delta_x }

/-- `View2D.pan`: scaled by the fixed PAN_FACTOR = 4. -/
def View2D.pan (st : View2D) (delta_x delta_y : ℚ) : View2D :=
  { st with x := st.x + delta_x * 4, y := st.y - delta_y * 4 }

/-- `ViewMode.zoom` on a `View2D`: only the zoom factor changes. -/
def View2D.zoom (st : View2D) (delta_x delta_y : ℚ) : View2D :=
  { st with zoom_factor := zoomStep st.zoom_factor delta_y }

/-- The `View3D` camera state: pan offsets, zoom factor, azimuth, elevation
and the save/restore stack
(`_save_vars = [x, y, z, zoom_factor, azimuth, elevation]`). -/
structure View3D where
  x : ℚ
  y : ℚ
  z : ℚ
  zoom_factor : ℚ
  azimuth : ℚ
  elevation : ℚ
  stack : List ℚ

/-- `View3D` + `ViewMode.push_state`. -/
def View3D.push_state (st : View3D) : View3D :=
  { st with stack :=
      pushVar (pushVar (pushVar (pushVar (pushVar (pushVar st.stack st.x) st.y)
        st.z) st.zoom_factor) st.azimuth) st.elevation }

/-- `View3D` + `ViewMode.pop_state`. -/
def View3D.pop_state (st : View3D) : View3D :=
  let p1 := popTop st.stack
  let p2 := popTop p1.2
  let p3 := popTop p2.2
  let p4 := popTop p3.2
  let p5 := popTop p4.2
  let p6 := popTop p5.2
  { x := p6.1, y := p5.1, z := p4.1, zoom_factor := p3.1, azimuth := p2.1,
    elevation := p1.1, stack := p6.2 }

/-- `ViewMode.reset_state` on a `View3D`. -/
def View3D.reset_state (st : View3D) : View3D := st.pop_state.push_state

/-- `View3D.rotate`: azimuth from delta_x, elevation from delta_y. -/
def View3D.rotate (st : View3D) (delta_x delta_y : ℚ) : View3D :=
  { st with azimuth := st.azimuth + delta_x, elevation := st.elevation - delta_y }

/-- `View3D.pan`: drag distances divided by the current zoom factor (rational
division is total; the source raises ZeroDivisionError at zoom factor 0, which
no camera state reachable from the initial 1.0 produces). -/
def View3D.pan (st : View3D) (delta_x delta_y : ℚ) : View3D :=
  { st with x := st.x + delta_x / st.zoom_factor,
            z := st.z - delta_y / st.zoom_factor }

/-- `ViewMode.zoom` on a `View3D`: only the zoom factor changes. -/
def View3D.zoom (st : View3D) (delta_x delta_y : ℚ) : View3D :=
  { st with zoom_factor := zoomStep st.zoom_factor delta_y }

/-- A camera gesture: one of the three parameter-changing operations shared by
both view modes. -/
inductive CamGesture where
  | rotate (delta_x delta_y : ℚ)
  | pan (delta_x delta_y : ℚ)
  | zoom (delta_x delta_y : ℚ)

/-- Apply one gesture to a `View2D`. -/
def View2D.applyGesture (st : View2D) : CamGesture → View2D
  | .rotate dx dy => st.rotate dx dy
  | .pan dx dy => st.pan dx dy
  | .zoom dx dy => st.zoom dx dy

/-- Apply a sequence of gestures to a `View2D`, in order. -/
def View2D.applySeq (st : View2D) (gs : List CamGesture) : View2D :=
  gs.foldl View2D.applyGesture st

/-- Apply one gesture to a `View3D`. -/
def View3D.applyGesture (st : View3D) : CamGesture → View3D
  | .rotate dx dy => st.rotate dx dy
  | .pan dx dy => st.pan dx dy
  | .zoom dx dy => st.zoom dx dy

/-- Apply a sequence of gestures to a `View3D`, in order. -/
def View3D.applySeq (st : View3D) (gs : List CamGesture) : View3D :=
  gs.foldl View3D.applyGesture st

theorem View2D.applyGesture_stack_2d (st : View2D) (g : CamGesture) :
    (st.applyGesture g).stack = st.stack := by
  cases g <;> rfl

theorem View2D.applySeq_stack_2d (gs : List CamGesture) :
    ∀ st : View2D, (st.applySeq gs).stack = st.stack := by
  induction gs with
  | nil => intro st; rfl
  | cons g t ih =>
      intro st
      rw [View2D.applySeq, List.foldl_cons]
      rw [show List.foldl View2D.applyGesture (st.applyGesture g) t =
        (st.applyGesture g).applySeq t from rfl]
      rw [ih, View2D.applyGesture_stack_2d]

theorem View3D.applyGesture_stack_3d (st : View3D) (g : CamGesture) :
    (st.applyGesture g).stack = st.stack := by
  cases g <;> rfl

theorem View3D.applySeq_stack_3d (gs : List CamGesture) :
    ∀ st : View3D, (st.applySeq gs).stack = st.stack := by
  induction gs with
  | nil => intro st; rfl
  | cons g t ih =>
      intro st
      rw [View3D.applySeq, List.foldl_cons]
      rw [show List.foldl View3D.applyGesture (st.applyGesture g) t =
        (st.applyGesture g).applySeq t from rfl]
      rw [ih, View3D.applyGesture_stack_3d]

/-- `View2D.__init__`: zero offsets, zoom factor 5.0, azimuth 0, with the
initial state pushed at construction. -/
def View2D.init : View2D := View2D.push_state ⟨0, 0, 0, 5, 0, []⟩

/-- `View3D.__init__`: offsets (0, 180, -20), zoom factor 1.0, azimuth 0,
elevation -20, with the initial state pushed at construction. -/
def View3D.init : View3D := View3D.push_state ⟨0, 180, -20, 1, 0, -20, []⟩

theorem zoomStep_mem (zf dy : ℚ) (h1 : ZOOM_MIN ≤ zf) (h2 : zf ≤ ZOOM_MAX) :
    ZOOM_MIN ≤ zoomStep zf dy ∧ zoomStep zf dy ≤ ZOOM_MAX := by
  rw [zoomStep]
  split_ifs with hpos hneg
  · refine ⟨le_min ?_ ?_, min_le_right _ _⟩
    · rw [ZOOM_MIN] at h1 ⊢; linarith
    · rw [ZOOM_MIN, ZOOM_MAX]; norm_num
  · refine ⟨le_max_right _ _, max_le ?_ ?_⟩
    · rw [ZOOM_MAX] at h2 ⊢; linarith
    · rw [ZOOM_MIN, ZOOM_MAX]; norm_num
  · exact ⟨h1, h2⟩

theorem zoomFold_mem (deltas : List ℚ) :
    ∀ zf : ℚ, ZOOM_MIN ≤ zf → zf ≤ ZOOM_MAX →
    ZOOM_MIN ≤ deltas.foldl zoomStep zf ∧ deltas.foldl zoomStep zf ≤ ZOOM_MAX := by
  induction deltas with
  | nil => intro zf h1 h2; exact ⟨h1, h2⟩
  | cons d t ih =>
      intro zf h1 h2
      obtain ⟨h3, h4⟩ := zoomStep_mem zf d h1 h2
      simpa using ih (zoomStep zf d) h3 h4

theorem View2D.zoomSeq_factor_2d (deltas : List (ℚ × ℚ)) :
    ∀ st : View2D,
    (deltas.foldl (fun s d => s.zoom d.1 d.2) st).zoom_factor =
      (deltas.map Prod.snd).foldl zoomStep st.zoom_factor := by
  induction deltas with
  | nil => intro st; rfl
  | cons d t ih => intro st; simpa using ih (st.zoom d.1 d.2)

theorem View3D.zoomSeq_factor_3d (deltas : List (ℚ × ℚ)) :
    ∀ st : View3D,
    (deltas.foldl (fun s d => s.zoom d.1 d.2) st).zoom_factor =
      (deltas.map Prod.snd).foldl zoomStep st.zoom_factor := by
  induction deltas with
  | nil => intro st; rfl
  | cons d t ih => intro st; simpa using ih (st.zoom d.1 d.2)

/-- C6: in either view mode, a zoom factor that starts within
[ZOOM_MIN, ZOOM_MAX] stays within [ZOOM_MIN, ZOOM_MAX] after any sequence of
zoom calls: each zoom-in step multiplies by 1.2 capped at 1000 and each
zoom-out step multiplies by 0.83 floored at 0.1. -/
theorem C6_zoom_clamped (zf : ℚ) (h1 : ZOOM_MIN ≤ zf) (h2 : zf ≤ ZOOM_MAX)
    (deltas : List (ℚ × ℚ)) :
    (∀ st : View2D, st.zoom_factor = zf →
      ZOOM_MIN ≤ (deltas.foldl (fun s d => s.zoom d.1 d.2) st).zoom_factor ∧
      (deltas.foldl (fun s d => s.zoom d.1 d.2) st).zoom_factor ≤ ZOOM_MAX) ∧
    (∀ st : View3D, st.zoom_factor = zf →
      ZOOM_MIN ≤ (deltas.foldl (fun s d => s.zoom d.1 d.2) st).zoom_factor ∧
      (deltas.foldl (fun s d => s.zoom d.1 d.2) st).zoom_factor ≤ ZOOM_MAX) := by
  constructor
  · intro st hst
    rw [View2D.zoomSeq_factor_2d, hst]
    exact zoomFold_mem (deltas.map Prod.snd) zf h1 h2
  · intro st hst
    rw [View3D.zoomSeq_factor_3d, hst]
    exact zoomFold_mem (deltas.map Prod.snd) zf h1 h2

/-- Witness for C6: a concrete zoom-in then zoom-out from the initial 3D view,
whose zoom factor 1.0 lies inside the clamp range. -/
theorem C6_zoom_clamped_witness :
    ZOOM_MIN ≤ ([((0 : ℚ), (1 : ℚ)), (0, -1)].foldl
      (fun s d => s.zoom d.1 d.2) View3D.init).zoom_factor ∧
    ([((0 : ℚ), (1 : ℚ)), (0, -1)].foldl
      (fun s d => s.zoom d.1 d.2) View3D.init).zoom_factor ≤ ZOOM_MAX :=
  (C6_zoom_clamped 1 (by norm_num [ZOOM_MIN]) (by norm_num [ZOOM_MAX])
    [(0, 1), (0, -1)]).2 View3D.init rfl

theorem View2D.pop_of_pushed_2d (st A : View2D) (h : A.stack = st.push_state.stack) :
    A.pop_state = ⟨st.x, st.y, st.z, st.zoom_factor, st.azimuth, st.stack⟩ := by
  simp only [View2D.pop_state, h, View2D.push_state, popTop_pushVar]

theorem View3D.pop_of_pushed_3d (st A : View3D) (h : A.stack = st.push_state.stack) :
    A.pop_state =
      ⟨st.x, st.y, st.z, st.zoom_factor, st.azimuth, st.elevation, st.stack⟩ := by
  simp only [View3D.pop_state, h, View3D.push_state, popTop_pushVar]

/-- C7: in either view mode, after push_state followed by any sequence of
rotate, pan and zoom gestures, reset_state restores every tracked camera
parameter (offsets, zoom factor, azimuth and, in 3D, elevation) to the values
present at the push, and leaves the stack exactly as the push left it, so the
same baseline remains available for future resets. -/
theorem C7_reset_state (s2 : View2D) (s3 : View3D) (gs2 gs3 : List CamGesture) :
    ((s2.push_state.applySeq gs2).reset_state.x = s2.x ∧
     (s2.push_state.applySeq gs2).reset_state.y = s2.y ∧
     (s2.push_state.applySeq gs2).reset_state.z = s2.z ∧
     (s2.push_state.applySeq gs2).reset_state.zoom_factor = s2.zoom_factor ∧
     (s2.push_state.applySeq gs2).reset_state.azimuth = s2.azimuth ∧
     (s2.push_state.applySeq gs2).reset_state.stack = s2.push_state.stack) ∧
    ((s3.push_state.applySeq gs3).reset_state.x = s3.x ∧
     (s3.push_state.applySeq gs3).reset_state.y = s3.y ∧
     (s3.push_state.applySeq gs3).reset_state.z = s3.z ∧
     (s3.push_state.applySeq gs3).reset_state.zoom_factor = s3.zoom_factor ∧
     (s3.push_state.applySeq gs3).reset_state.azimuth = s3.azimuth ∧
     (s3.push_state.applySeq gs3).reset_state.elevation = s3.elevation ∧
     (s3.push_state.applySeq gs3).reset_state.stack = s3.push_state.stack) := by
  constructor
  · have hst : (s2.push_state.applySeq gs2).stack = s2.push_state.stack := by
      rw [View2D.applySeq_stack_2d]
    have hpop := View2D.pop_of_pushed_2d s2 _ hst
    rw [View2D.reset_state, hpop]
    simp [View2D.push_state]
  · have hst : (s3.push_state.applySeq gs3).stack = s3.push_state.stack := by
      rw [View3D.applySeq_stack_3d]
    have hpop := View3D.pop_of_pushed_3d s3 _ hst
    rw [View3D.reset_state, hpop]
    simp [View3D.push_state]

/-- C10: zoom depends only on the prior zoom factor and the sign of delta_y:
the delta_x argument is ignored, delta_y = 0 leaves the whole state unchanged,
and two delta_y values with the same sign produce identical states; only the
zoom factor field is ever modified. -/
theorem C10_zoom_sign_only :
    (∀ (st : View3D) (dx dx2 dy : ℚ), st.zoom dx dy = st.zoom dx2 dy) ∧
    (∀ (st : View3D) (dx : ℚ), st.zoom dx 0 = st) ∧
    (∀ (st : View3D) (dx dy dy2 : ℚ), (0 < dy ↔ 0 < dy2) → (dy < 0 ↔ dy2 < 0) →
      st.zoom dx dy = st.zoom dx dy2) ∧
    (∀ (st : View2D) (dx dx2 dy : ℚ), st.zoom dx dy = st.zoom dx2 dy) ∧
    (∀ (st : View2D) (dx : ℚ), st.zoom dx 0 = st) ∧
    (∀ (st : View2D) (dx dy dy2 : ℚ), (0 < dy ↔ 0 < dy2) → (dy < 0 ↔ dy2 < 0) →
      st.zoom dx dy = st.zoom dx dy2) := by
  have hstep : ∀ dy dy2 : ℚ, (0 < dy ↔ 0 < dy2) → (dy < 0 ↔ dy2 < 0) →
      ∀ zf : ℚ, zoomStep zf dy = zoomStep zf dy2 := by
    intro dy dy2 hp hn zf
    by_cases h1 : 0 < dy
    · have h2 := hp.mp h1
      simp [zoomStep, h1, h2]
    · have h2 : ¬ 0 < dy2 := fun h => h1 (hp.mpr h)
      by_cases h3 : dy < 0
      · have h4 := hn.mp h3
        simp [zoomStep, h1, h2, h3, h4]
      · have h4 : ¬ dy2 < 0 := fun h => h3 (hn.mpr h)
        simp [zoomStep, h1, h2, h3, h4]
  have hzero : ∀ zf : ℚ, zoomStep zf 0 = zf := by
    intro zf
    simp [zoomStep]
  refine ⟨fun st dx dx2 dy => rfl, ?_, ?_, fun st dx dx2 dy => rfl, ?_, ?_⟩
  · intro st dx
    rw [View3D.zoom, hzero]
  · intro st dx dy dy2 hp hn
    rw [View3D.zoom, View3D.zoom, hstep dy dy2 hp hn]
  · intro st dx
    rw [View2D.zoom, hzero]
  · intro st dx dy dy2 hp hn
    rw [View2D.zoom, View2D.zoom, hstep dy dy2 hp hn]

/-- Witness for C10: two same-sign zooms from the initial 3D view coincide,
and a zero delta_y leaves the state unchanged. -/
theorem C10_zoom_sign_only_witness :
    View3D.init.zoom 1 2 = View3D.init.zoom 1 3 ∧
    View3D.init.zoom 5 0 = View3D.init :=
  ⟨C10_zoom_sign_only.2.2.1 View3D.init 1 2 3 (by norm_num) (by norm_num),
   C10_zoom_sign_only.2.1 View3D.init 5⟩

/-! ## actors.py: layer selector and render sub-ranges -/

/-- `GcodeModel.max_layers`: `len(self.layer_stops) - 1`. -/
def max_layers (g : GcodeArrays) : ℕ := g.layer_stops.length - 1

/-- Modelled from the spec: the layers-to-draw selector setter. The UI layer
calls `app.on_layers_changed` (ui.py) with the slider value, but the handler
that stores the value on the model is not among the four source files; per
the spec the selector is clamped silently to [1, layer_count]. -/
def set_num_layers_to_draw (layer_count : ℕ) (n : ℤ) : ℕ :=
  (max 1 (min n (layer_count : ℤ))).toNat

/-- `GcodeModel._display_movements`: the (start, count) range handed to
glDrawArrays, for 2D mode (only the most recent layer) or 3D mode (all layers
up to the selected one). -/
def display_movements_range (g : GcodeArrays) (num_layers_to_draw : ℕ)
    (mode_2d : Bool) : ℕ × ℕ :=
  if mode_2d then
    (g.layer_stops.getD (num_layers_to_draw - 1) 0,
     g.layer_stops.getD num_layers_to_draw 0 -
       g.layer_stops.getD (num_layers_to_draw - 1) 0)
  else
    (0, g.layer_stops.getD num_layers_to_draw 0)

/-- `GcodeModel._display_arrows`: the arrow (start, count) range derived from
the layer stops by the fixed 2:3 ratio. -/
def display_arrows_range (g : GcodeArrays) (num_layers_to_draw : ℕ) : ℕ × ℕ :=
  ((g.layer_stops.getD (num_layers_to_draw - 1) 0 / 2) * 3,
   (g.layer_stops.getD num_layers_to_draw 0 / 2) * 3 -
     (g.layer_stops.getD (num_layers_to_draw - 1) 0 / 2) * 3)

theorem getD_le_lastStop (l : List ℕ) (hch : l.Chain' (· ≤ ·)) (i : ℕ) :
    l.getD i 0 ≤ lastStop l := by
  by_cases h : i < l.length
  · rw [List.getD_eq_getElem l 0 h]
    exact mem_le_lastStop l hch _ (l.getElem_mem h)
  · rw [List.getD_eq_default l 0 (by omega)]
    exact Nat.zero_le _

/-- C9: for every constructed toolpath model with at least one layer and every
requested layer count n (including values below 1 and above the layer count),
the clamped selector lies in [1, max_layers], and the movement and arrow
render sub-ranges computed from it stay inside the vertex and arrow buffers —
an out-of-range selector is never an error. -/
theorem C9_selector_clamped (model_data : List (List Movement)) (g : GcodeArrays)
    (hg : create_vertex_arrays model_data = some g)
    (hL : 1 ≤ max_layers g) (n : ℤ) :
    1 ≤ set_num_layers_to_draw (max_layers g) n ∧
    set_num_layers_to_draw (max_layers g) n ≤ max_layers g ∧
    (∀ mode_2d : Bool,
      (display_movements_range g (set_num_layers_to_draw (max_layers g) n) mode_2d).1 +
      (display_movements_range g (set_num_layers_to_draw (max_layers g) n) mode_2d).2 ≤
        g.vertices.length) ∧
    (display_arrows_range g (set_num_layers_to_draw (max_layers g) n)).1 +
    (display_arrows_range g (set_num_layers_to_draw (max_layers g) n)).2 ≤
      g.arrows.length := by
  have he := create_eq model_data
  rw [he] at hg
  obtain rfl : buildArrays model_data = g := by injection hg
  obtain ⟨K, hv, ha, hch, hlast, -, -⟩ := buildArrays_spec model_data
  have hk1 : 1 ≤ set_num_layers_to_draw (max_layers (buildArrays model_data)) n := by
    rw [set_num_layers_to_draw]
    omega
  have hk2 : set_num_layers_to_draw (max_layers (buildArrays model_data)) n ≤
      max_layers (buildArrays model_data) := by
    rw [set_num_layers_to_draw]
    omega
  have hs1 := getD_le_lastStop _ hch
    (set_num_layers_to_draw (max_layers (buildArrays model_data)) n - 1)
  have hs2 := getD_le_lastStop _ hch
    (set_num_layers_to_draw (max_layers (buildArrays model_data)) n)
  rw [hlast] at hs1 hs2
  refine ⟨hk1, hk2, ?_, ?_⟩
  · intro mode_2d
    cases mode_2d <;> simp only [display_movements_range, Bool.false_eq_true,
      if_false, if_true, reduceIte] <;> omega
  · rw [display_arrows_range]
    simp only
    omega

/-- Witness for C9: the two-layer demo model, with the out-of-range request
-5 clamped into [1, 2] and the resulting ranges inside the buffers. -/
theorem C9_selector_clamped_witness :
    1 ≤ set_num_layers_to_draw (max_layers (buildArrays demoLayers)) (-5) ∧
    set_num_layers_to_draw (max_layers (buildArrays demoLayers)) (-5) ≤
      max_layers (buildArrays demoLayers) ∧
    (∀ mode_2d : Bool,
      (display_movements_range (buildArrays demoLayers)
        (set_num_layers_to_draw (max_layers (buildArrays demoLayers)) (-5)) mode_2d).1 +
      (display_movements_range (buildArrays demoLayers)
        (set_num_layers_to_draw (max_layers (buildArrays demoLayers)) (-5)) mode_2d).2 ≤
        (buildArrays demoLayers).vertices.length) ∧
    (display_arrows_range (buildArrays demoLayers)
      (set_num_layers_to_draw (max_layers (buildArrays demoLayers)) (-5))).1 +
    (display_arrows_range (buildArrays demoLayers)
      (set_num_layers_to_draw (max_layers (buildArrays demoLayers)) (-5))).2 ≤
      (buildArrays demoLayers).arrows.length :=
  C9_selector_clamped demoLayers (buildArrays demoLayers) (create_eq demoLayers)
    (by decide) (-5)

end Tatlin
